import Mathlib

/-!
Verification of the `legostocker` set-lookup core (`legostocker/sets.py`).

The pandas `DataFrame` held by `RebrickableStore` is modelled as a list of
rows whose cells are dynamically typed values (a Python `str`, an integer —
covering pandas integer cells — or a missing value / NaN).  The lookup
`by_id`, the row-to-record conversion `_pdrow_to_set` and the loading
factory `from_csv` are translated below; Python exceptions become explicit
error values of `StoreError` / `LoadError`.
-/

/-- A dynamically typed cell of the sets table: a Python `str`, an integer
(pandas `int64` cells, also the value `int(...)` produces), or a missing
value (pandas `NaN`). -/
inductive Value where
  | str : String → Value
  | int : Int → Value
  | na  : Value
  deriving Repr, DecidableEq

/-- The `isinstance(v, str)` test on a cell. -/
def Value.isStr : Value → Bool
  | .str _ => true
  | _ => false

/-- One row of the sets table, with the four columns the store reads:
`set_num` (identifier), `name`, `year`, `num_parts`. -/
structure Row where
  set_num : Value
  name : Value
  year : Value
  num_parts : Value
  deriving Repr, DecidableEq

/-- The `LegoSet` pydantic model: id, name, and optional release year and
part count (`release_year: Optional[int] = None`, `part_count:
Optional[int] = None`). -/
structure LegoSet where
  set_id : Int
  set_name : String
  release_year : Option Int := none
  part_count : Option Int := none
  deriving Repr, DecidableEq

/-- Errors a query can raise: `indexNA` is the pandas `ValueError` raised
when boolean masking meets the `NaN` that `.str.startswith` yields on a
non-string cell; `assertionFailed` is the failed
`assert isinstance(row[ID], str)`; `conversionError` is the `ValueError`
raised by `int(...)` on a non-integer-like field. -/
inductive StoreError where
  | indexNA
  | assertionFailed
  | conversionError
  deriving Repr, DecidableEq

/-- Accumulating decimal-digit reader: consumes the remaining characters,
failing on the first non-digit. -/
def parseDigitsAux : List Char → Nat → Option Nat
  | [], acc => some acc
  | c :: cs, acc =>
    if '0' ≤ c ∧ c ≤ '9' then
      parseDigitsAux cs (acc * 10 + (c.toNat - '0'.toNat))
    else
      none

/-- Reads a non-empty all-digit character list as a natural number. -/
def parseDigits : List Char → Option Nat
  | [] => none
  | cs => parseDigitsAux cs 0

/-- Python `int(s)` on a string: an optional sign followed by at least one
decimal digit; anything else raises `ValueError` (modelled as `none`). -/
def pyInt_ofString (s : String) : Option Int :=
  match s.data with
  | '-' :: cs => (parseDigits cs).map (fun n => -(n : Int))
  | '+' :: cs => (parseDigits cs).map (fun n => (n : Int))
  | cs => (parseDigits cs).map (fun n => (n : Int))

/-- Python `int(v)` on a cell: integers pass through, strings are parsed
as decimal integers, `NaN` raises `ValueError` (modelled as `none`). -/
def pyInt : Value → Option Int
  | .str s => pyInt_ofString s
  | .int n => some n
  | .na => none

/-- Python `str(v)` on a cell (always succeeds; `str(nan) = "nan"`). -/
def pyStr : Value → String
  | .str s => s
  | .int n => toString n
  | .na => "nan"

/-- Python `s.split('-')[0]`: the characters before the first `'-'`
(the whole string when no dash occurs). -/
def firstSegment (s : String) : String :=
  String.mk (s.data.takeWhile (fun c => c != '-'))

/-- Python `s.startswith(pfx)`, as literal string matching. -/
def strStartswith (pfx s : String) : Bool :=
  List.isPrefixOf pfx.data s.data

/-- `s.startswith(pfx)` lifted to a cell, yielding `false` off strings
(used only to state the selection rule; the mask itself is
`strStartswithMask`). -/
def startswithV (pfx : String) : Value → Bool
  | .str s => strStartswith pfx s
  | _ => false

/-- `frame[ID].str.startswith(pfx)`: element-wise `startswith` over the
identifier column.  A non-string cell yields `NaN` in the pandas mask, on
which the subsequent boolean indexing raises — modelled as `none` for the
whole mask. -/
def strStartswithMask (pfx : String) : List Row → Option (List Bool)
  | [] => some []
  | row :: rest =>
    match row.set_num with
    | .str s => (strStartswithMask pfx rest).map (fun m => strStartswith pfx s :: m)
    | _ => none

/-- `frame[mask]`: keeps the rows whose mask entry is `true`. -/
def maskFrame : List Row → List Bool → List Row
  | [], _ => []
  | _ :: _, [] => []
  | row :: rest, b :: bs =>
    if b then row :: maskFrame rest bs else maskFrame rest bs

/-- `self.sets_frame[self.sets_frame[ID].str.startswith(str(set_id))]`:
the sub-frame of rows whose identifier starts with the decimal string of
`set_id`; `none` when the mask raised on a non-string cell. -/
def matchingRows (frame : List Row) (set_id : Int) : Option (List Row) :=
  match strStartswithMask (toString set_id) frame with
  | none => none
  | some mask => some (maskFrame frame mask)

/-- `RebrickableStore._pdrow_to_set`: asserts the identifier cell is a
string, then builds the record via `int(row[ID].split('-')[0])`,
`str(row[NAME])`, `int(row[YEAR])`, `int(row[PARTS])`; a failed `int(...)`
is a `conversionError`. -/
def pdrow_to_set (row : Row) : Except StoreError LegoSet :=
  match row.set_num with
  | .str s =>
    match pyInt_ofString (firstSegment s), pyInt row.year, pyInt row.num_parts with
    | some i, some y, some c =>
      .ok { set_id := i, set_name := pyStr row.name,
            release_year := some y, part_count := some c }
    | _, _, _ => .error .conversionError
  | _ => .error .assertionFailed

/-- `RebrickableStore.by_id` over the frame: filter by string-prefix match
on the identifier column; empty result is `None` (absence); otherwise
convert the first row in table order (`iloc[0]`). -/
def by_id (frame : List Row) (set_id : Int) : Except StoreError (Option LegoSet) :=
  match matchingRows frame set_id with
  | none => .error .indexNA
  | some [] => .ok none
  | some (row :: _) =>
    match pdrow_to_set row with
    | .ok s => .ok (some s)
    | .error e => .error e

/-- `RebrickableStore`: wraps the loaded frame (`self.sets_frame`),
assigned once in `__init__`. -/
structure RebrickableStore where
  sets_frame : List Row
  deriving Repr, DecidableEq

/-- `RebrickableStore.by_id` as a state-passing method: the body binds only
the local variables `set_id` and `searched_set` and never assigns an
attribute of `self`, so the returned store is the input store. -/
def RebrickableStore.by_id_st (store : RebrickableStore) (set_id : Int) :
    Except StoreError (Option LegoSet) × RebrickableStore :=
  (by_id store.sets_frame set_id, store)

/-- A sequence of `by_id` queries run against a store, threading the store
state through each call. -/
def runQueries (store : RebrickableStore) (ids : List Int) : RebrickableStore :=
  ids.foldl (fun s i => (RebrickableStore.by_id_st s i).2) store

/-- Construction-time errors: the `FileNotFoundError`/`IOError` for a
missing or unreadable path, and the pandas `ParserError` for content that
is not valid delimited tabular text. -/
inductive LoadError where
  | notFound
  | parseError
  deriving Repr, DecidableEq

/-- Modelled from the spec: `pandas.read_csv` is an external library call,
not code of this repository.  Per the spec it fails with `NotFound` when
the path is missing or unreadable and with `ParseError` when the content
is not valid delimited tabular text.  The file system is a partial map
from paths to contents, and the csv grammar is the abstract parameter
`parse`. -/
def read_csv (fs : String → Option String) (parse : String → Option (List Row))
    (path : String) : Except LoadError (List Row) :=
  match fs path with
  | none => .error .notFound
  | some content =>
    match parse content with
    | none => .error .parseError
    | some rows => .ok rows

/-- `RebrickableStore.from_csv`: runs `read_csv` on the executor, awaits
it, and wraps the resulting frame; any loader error propagates to the
caller unchanged — there is no retry and no recovery branch. -/
def RebrickableStore.from_csv (fs : String → Option String)
    (parse : String → Option (List Row)) (csv_file : String) :
    Except LoadError RebrickableStore :=
  match read_csv fs parse csv_file with
  | .error e => .error e
  | .ok sets_frame => .ok ⟨sets_frame⟩

deriving instance DecidableEq for Except

/-- On a frame whose identifier cells are all strings, the startswith mask
succeeds and is the element-wise string-prefix test. -/
theorem strStartswithMask_eq_map {frame : List Row} {pfx : String}
    (h : ∀ r ∈ frame, r.set_num.isStr = true) :
    strStartswithMask pfx frame
      = some (frame.map (fun r => startswithV pfx r.set_num)) := by
  induction frame with
  | nil => rfl
  | cons r rest ih =>
    have hr := h r (by simp)
    have hrest : ∀ x ∈ rest, x.set_num.isStr = true := fun x hx => h x (by simp [hx])
    cases hs : r.set_num with
    | str s => simp [strStartswithMask, hs, ih hrest, startswithV]
    | int m => rw [hs] at hr; simp [Value.isStr] at hr
    | na => rw [hs] at hr; simp [Value.isStr] at hr

/-- Masking a frame with the element-wise image of a predicate is
filtering by that predicate. -/
theorem maskFrame_map (frame : List Row) (f : Row → Bool) :
    maskFrame frame (frame.map f) = frame.filter f := by
  induction frame with
  | nil => rfl
  | cons r rest ih =>
    by_cases hb : f r <;> simp [maskFrame, List.filter_cons, hb, ih]

/-- On an all-string frame, the selected sub-frame is exactly the rows
whose identifier starts with the decimal string of the queried id. -/
theorem matchingRows_eq_filter {frame : List Row} (n : Int)
    (h : ∀ r ∈ frame, r.set_num.isStr = true) :
    matchingRows frame n
      = some (frame.filter (fun r => startswithV (toString n) r.set_num)) := by
  unfold matchingRows
  rw [strStartswithMask_eq_map h]
  simp [maskFrame_map]

/-- A single non-string identifier cell anywhere in the frame makes the
whole startswith mask raise. -/
theorem strStartswithMask_none {frame : List Row} {r : Row} (pfx : String)
    (hmem : r ∈ frame) (hns : r.set_num.isStr = false) :
    strStartswithMask pfx frame = none := by
  induction frame with
  | nil => cases hmem
  | cons x rest ih =>
    cases hmem with
    | head =>
      cases hs : r.set_num with
      | str s => rw [hs] at hns; simp [Value.isStr] at hns
      | int m => simp [strStartswithMask, hs]
      | na => simp [strStartswithMask, hs]
    | tail _ hmem' =>
      cases hs : x.set_num with
      | str s => simp [strStartswithMask, hs, ih hmem']
      | int m => simp [strStartswithMask, hs]
      | na => simp [strStartswithMask, hs]

/-- A record that `_pdrow_to_set` successfully produces always carries a
present release year and part count. -/
theorem pdrow_to_set_ok_fields {row : Row} {s : LegoSet}
    (h : pdrow_to_set row = .ok s) :
    s.release_year ≠ none ∧ s.part_count ≠ none := by
  unfold pdrow_to_set at h
  split at h
  · split at h
    · injection h with h'
      subst h'
      simp
    · simp at h
  · simp at h

/-- When the selected sub-frame is non-empty, `by_id` is the conversion of
its first row (errors included). -/
theorem by_id_of_matching_cons {frame : List Row} {n : Int} {r : Row}
    {rest : List Row} (h : matchingRows frame n = some (r :: rest)) :
    by_id frame n = Except.map some (pdrow_to_set r) := by
  unfold by_id
  rw [h]
  cases hpd : pdrow_to_set r <;> simp [hpd, Except.map]


/-- Claim C1: the lookup rule of `by_id` is literal string-prefix matching
on the identifier column — on an all-string table a row is selected iff
its identifier value starts with the decimal string of the queried id —
and in particular `by_id 7` against a table containing only `"71-1"`
returns a non-absent result. -/
theorem by_id_is_string_prefix_match :
    (∀ (frame : List Row) (n : Int),
      (∀ r ∈ frame, r.set_num.isStr = true) →
      matchingRows frame n
        = some (frame.filter (fun r => startswithV (toString n) r.set_num)))
    ∧ by_id [⟨.str "71-1", .str "Some Set", .int 2005, .int 10⟩] 7
        = .ok (some ⟨71, "Some Set", some 2005, some 10⟩) := by
  constructor
  · intro frame n h
    exact matchingRows_eq_filter n h
  · decide

/-- Witness for C1: the selection rule evaluated on the one-row `"71-1"`
table. -/
theorem by_id_is_string_prefix_match_witness :
    matchingRows [⟨.str "71-1", .str "Some Set", .int 2005, .int 10⟩] 7
      = some (List.filter (fun r => startswithV (toString (7 : Int)) r.set_num)
          [⟨.str "71-1", .str "Some Set", .int 2005, .int 10⟩]) :=
  by_id_is_string_prefix_match.1
    [⟨.str "71-1", .str "Some Set", .int 2005, .int 10⟩] 7 (by decide)

/-- Claim C2: a matched well-formed row is converted by splitting the
identifier on `-`, parsing the first segment as the integer id, and taking
name, year and part count from the other columns; concretely, on the table
containing `"7140-1", "Brick Separator", 2001, 4`, `by_id 7140` returns
the record `set_id=7140, set_name="Brick Separator", release_year=2001,
part_count=4`. -/
theorem pdrow_conversion_rule :
    (∀ (s nm : String) (y c i : Int),
      pyInt_ofString (firstSegment s) = some i →
      pdrow_to_set ⟨.str s, .str nm, .int y, .int c⟩
        = .ok ⟨i, nm, some y, some c⟩)
    ∧ by_id [⟨.str "7140-1", .str "Brick Separator", .int 2001, .int 4⟩] 7140
        = .ok (some ⟨7140, "Brick Separator", some 2001, some 4⟩) := by
  constructor
  · intro s nm y c i h
    simp [pdrow_to_set, pyInt, pyStr, h]
  · decide

/-- Witness for C2: the conversion rule evaluated on the row `"7140-1",
"Brick Separator", 2001, 4`. -/
theorem pdrow_conversion_rule_witness :
    pdrow_to_set ⟨.str "7140-1", .str "Brick Separator", .int 2001, .int 4⟩
      = .ok ⟨7140, "Brick Separator", some 2001, some 4⟩ :=
  pdrow_conversion_rule.1 "7140-1" "Brick Separator" 2001 4 7140 (by decide)

/-- Claim C3: when rows match, `by_id` returns the record derived from the
first matching row in table order and that row only; concretely, with rows
`"1000-1"` then `"1000-2"`, `by_id 1000` returns the record from the first
row. -/
theorem by_id_takes_first_match :
    (∀ (frame : List Row) (n : Int) (r : Row) (rest : List Row),
      matchingRows frame n = some (r :: rest) →
      by_id frame n = Except.map some (pdrow_to_set r))
    ∧ by_id [⟨.str "1000-1", .str "A", .int 1990, .int 10⟩,
             ⟨.str "1000-2", .str "B", .int 1991, .int 20⟩] 1000
        = .ok (some ⟨1000, "A", some 1990, some 10⟩) := by
  constructor
  · intro frame n r rest h
    exact by_id_of_matching_cons h
  · decide

/-- Witness for C3: the first-match rule evaluated on the two-row
`"1000-1"` / `"1000-2"` table. -/
theorem by_id_takes_first_match_witness :
    by_id [⟨.str "1000-1", .str "A", .int 1990, .int 10⟩,
           ⟨.str "1000-2", .str "B", .int 1991, .int 20⟩] 1000
      = Except.map some (pdrow_to_set ⟨.str "1000-1", .str "A", .int 1990, .int 10⟩) :=
  by_id_takes_first_match.1
    [⟨.str "1000-1", .str "A", .int 1990, .int 10⟩,
     ⟨.str "1000-2", .str "B", .int 1991, .int 20⟩] 1000
    ⟨.str "1000-1", .str "A", .int 1990, .int 10⟩
    [⟨.str "1000-2", .str "B", .int 1991, .int 20⟩] (by decide)

/-- Claim C4: for every positive id with no row whose identifier starts
with its decimal string, `by_id` returns the explicit absence value, a
normal outcome and not an error. -/
theorem by_id_absent_when_no_match :
    ∀ (frame : List Row) (n : Int), 0 < n →
      (∀ r ∈ frame, r.set_num.isStr = true) →
      (∀ r ∈ frame, startswithV (toString n) r.set_num = false) →
      by_id frame n = .ok none := by
  intro frame n _ hstr hnm
  unfold by_id
  rw [matchingRows_eq_filter n hstr]
  have hnil : frame.filter (fun r => startswithV (toString n) r.set_num) = [] := by
    rw [List.filter_eq_nil_iff]
    intro a ha
    simp [hnm a ha]
  rw [hnil]

/-- Witness for C4: `by_id 9` on the one-row `"71-1"` table is absence. -/
theorem by_id_absent_when_no_match_witness :
    by_id [⟨.str "71-1", .str "Some Set", .int 2005, .int 10⟩] 9 = .ok none :=
  by_id_absent_when_no_match
    [⟨.str "71-1", .str "Some Set", .int 2005, .int 10⟩] 9
    (by decide) (by decide) (by decide)

/-- Claim C5: construction through the loading factory fails with
`NotFound` when the path is missing and with `ParseError` when the content
is not valid delimited tabular text, and every loader error propagates to
the caller unchanged (no retry, no internal recovery). -/
theorem from_csv_error_propagation :
    ∀ (fs : String → Option String) (parse : String → Option (List Row))
      (path : String),
      (fs path = none →
        RebrickableStore.from_csv fs parse path = .error .notFound)
      ∧ (∀ content, fs path = some content → parse content = none →
          RebrickableStore.from_csv fs parse path = .error .parseError)
      ∧ (∀ e, read_csv fs parse path = .error e →
          RebrickableStore.from_csv fs parse path = .error e) := by
  intro fs parse path
  refine ⟨?_, ?_, ?_⟩
  · intro h
    simp [RebrickableStore.from_csv, read_csv, h]
  · intro content h1 h2
    simp [RebrickableStore.from_csv, read_csv, h1, h2]
  · intro e h
    simp [RebrickableStore.from_csv, h]

/-- Witness for C5: a missing path yields `NotFound`; unparsable content
yields `ParseError`. -/
theorem from_csv_error_propagation_witness :
    RebrickableStore.from_csv (fun _ => none) (fun _ => some []) "sets.csv"
        = .error .notFound
    ∧ RebrickableStore.from_csv (fun _ => some "garbage") (fun _ => none) "sets.csv"
        = .error .parseError :=
  ⟨(from_csv_error_propagation (fun _ => none) (fun _ => some []) "sets.csv").1 rfl,
   (from_csv_error_propagation (fun _ => some "garbage") (fun _ => none)
      "sets.csv").2.1 "garbage" rfl rfl⟩

/-- Claim C6: when the first matching row cannot be converted — e.g. its
year field is missing — the query fails with the hard `ConversionError`
rather than being swallowed or returning absence. -/
theorem by_id_conversion_is_hard_error :
    (∀ (frame : List Row) (n : Int) (r : Row) (rest : List Row),
      matchingRows frame n = some (r :: rest) →
      pdrow_to_set r = .error .conversionError →
      by_id frame n = .error .conversionError)
    ∧ by_id [⟨.str "7140-1", .str "Brick Separator", .na, .int 4⟩] 7140
        = .error .conversionError := by
  constructor
  · intro frame n r rest h hr
    rw [by_id_of_matching_cons h, hr]
    rfl
  · decide

/-- Witness for C6: the propagation rule evaluated on a one-row table
whose matched row has a missing year. -/
theorem by_id_conversion_is_hard_error_witness :
    by_id [⟨.str "7140-1", .str "Brick Separator", .na, .int 4⟩] 7140
      = .error StoreError.conversionError :=
  by_id_conversion_is_hard_error.1
    [⟨.str "7140-1", .str "Brick Separator", .na, .int 4⟩] 7140
    ⟨.str "7140-1", .str "Brick Separator", .na, .int 4⟩ [] (by decide) (by decide)

/-- Claim C7: a row whose identifier cell is not string-typed makes the
query fail with an error instead of being silently skipped — the mask over
the identifier column raises on that row, and the strict type assertion of
the conversion rejects the row as well. -/
theorem nonstring_identifier_fails_loudly :
    ∀ (frame : List Row) (n : Int) (r : Row), r ∈ frame →
      r.set_num.isStr = false →
      by_id frame n = .error .indexNA
      ∧ pdrow_to_set r = .error .assertionFailed := by
  intro frame n r hmem hns
  constructor
  · have hm : matchingRows frame n = none := by
      unfold matchingRows
      rw [strStartswithMask_none (toString n) hmem hns]
    unfold by_id
    rw [hm]
  · cases hs : r.set_num with
    | str s => rw [hs] at hns; simp [Value.isStr] at hns
    | int m => simp [pdrow_to_set, hs]
    | na => simp [pdrow_to_set, hs]

/-- Witness for C7: a one-row table whose identifier cell is the integer
71 instead of a string. -/
theorem nonstring_identifier_fails_loudly_witness :
    by_id [⟨.int 71, .str "Some Set", .int 2005, .int 10⟩] 7
        = .error StoreError.indexNA
    ∧ pdrow_to_set ⟨.int 71, .str "Some Set", .int 2005, .int 10⟩
        = .error StoreError.assertionFailed :=
  nonstring_identifier_fails_loudly
    [⟨.int 71, .str "Some Set", .int 2005, .int 10⟩] 7
    ⟨.int 71, .str "Some Set", .int 2005, .int 10⟩ (by decide) (by decide)

/-- Claim C8: `by_id` is deterministic over an unchanged store — running
the same query twice in sequence through the state-passing embedding
returns the same result both times. -/
theorem by_id_deterministic :
    ∀ (store : RebrickableStore) (n : Int),
      (RebrickableStore.by_id_st ((RebrickableStore.by_id_st store n).2) n).1
        = (RebrickableStore.by_id_st store n).1 :=
  fun _ _ => rfl

/-- Claim C9: the store is read-only after construction — any sequence of
`by_id` queries leaves the store's in-memory table identical, and a single
query never mutates the store. -/
theorem store_immutable_under_queries :
    ∀ (store : RebrickableStore) (ids : List Int) (n : Int),
      runQueries store ids = store
      ∧ (RebrickableStore.by_id_st store n).2 = store := by
  intro store ids n
  constructor
  · induction ids generalizing store with
    | nil => rfl
    | cons i rest ih => exact ih store
  · rfl

/-- Claim C10: every record `by_id` successfully returns carries a present
release year and part count, even though the record type declares both
fields optional. -/
theorem by_id_record_has_year_and_parts :
    ∀ (frame : List Row) (n : Int) (s : LegoSet),
      by_id frame n = .ok (some s) →
      s.release_year ≠ none ∧ s.part_count ≠ none := by
  intro frame n s h
  unfold by_id at h
  split at h
  · simp at h
  · simp at h
  · rename_i row rest heq
    split at h
    · rename_i s' hpd
      injection h with h'
      injection h' with h''
      subst h''
      exact pdrow_to_set_ok_fields hpd
    · simp at h

/-- Witness for C10: the record returned for `by_id 7140` on the
`"7140-1"` table has both optional fields present. -/
theorem by_id_record_has_year_and_parts_witness :
    LegoSet.release_year ⟨7140, "Brick Separator", some 2001, some 4⟩ ≠ none
    ∧ LegoSet.part_count ⟨7140, "Brick Separator", some 2001, some 4⟩ ≠ none :=
  by_id_record_has_year_and_parts
    [⟨.str "7140-1", .str "Brick Separator", .int 2001, .int 4⟩] 7140
    ⟨7140, "Brick Separator", some 2001, some 4⟩ (by decide)
